import Mathlib

/-!
Shallow embedding of the live-trading layer of this repository
(`app/services/live_trading/*`): the execution dispatcher, the
contract-count conversion of the KuCoin futures and Gate USDT-futures
adapters, the fill-polling loops, the Gate signing function, the adapter
factory, and the Bitfinex derivatives client.

Modelling conventions, used throughout:
* Python `float` and `decimal.Decimal` values are embedded as `ℚ`
  (arithmetic on the values the code manipulates is exact at the
  magnitudes involved; no claim concerns rounding of binary floats).
  Multiplication and division on `ℚ` are written with the
  kernel-computable `qmul`/`qdiv`, proved equal to `·*·` and `·/·` below.
* Python strings are `String`; `str.strip()` is `pyStrip`, `str.lower()`
  is `pyLower`, `needle in haystack` is `strContains` (all defined over
  the character list so that concrete instances evaluate).
* A raised `LiveTradingError` is `Except.error` with the message the
  source raises; a normal return is `Except.ok`.
* JSON dictionaries read by the code are embedded as structures whose
  fields are `Option`-typed: `none` stands for an absent key, and — for
  numeric fields read through `float(... or 0.0)` under `try/except` —
  also for a value whose conversion fails (both behave as `0.0`).
* Functions that perform exactly one network submission are embedded as
  functions returning the submitted request body (`Except.ok body`), so
  "raises before any network call" is `Except.error`.
* The symbol-normalisation helpers (`to_kucoin_futures_symbol`,
  `to_bitfinex_spot_symbol`, ...) live in `symbols.py`, outside the
  embedded core; they are passed as `String → String` parameters.
-/

deriving instance DecidableEq for Except

namespace LiveTrading

/-- Kernel-computable multiplication on `ℚ` (Batteries marks `Rat.mul`
irreducible, which blocks `decide`); `qmul_eq` proves it is `· * ·`. -/
def qmul (a b : ℚ) : ℚ := Rat.divInt (a.num * b.num) ((a.den : ℤ) * (b.den : ℤ))

/-- Kernel-computable division on `ℚ`; `qdiv_eq` proves it is `· / ·`. -/
def qdiv (a b : ℚ) : ℚ := Rat.divInt (a.num * (b.den : ℤ)) ((a.den : ℤ) * b.num)

theorem qmul_eq (a b : ℚ) : qmul a b = a * b := by
  unfold qmul
  rw [Rat.divInt_eq_div]
  push_cast
  rw [← div_mul_div_comm, Rat.num_div_den, Rat.num_div_den]

theorem qdiv_eq (a b : ℚ) : qdiv a b = a / b := by
  unfold qdiv
  rw [Rat.divInt_eq_div, div_eq_mul_inv a b, Rat.inv_def', Rat.divInt_eq_div]
  push_cast
  rw [← div_mul_div_comm, Rat.num_div_den]

/-- `str.strip()`: drop leading and trailing whitespace. -/
def pyStrip (s : String) : String :=
  String.mk (((s.data.dropWhile Char.isWhitespace).reverse.dropWhile Char.isWhitespace).reverse)

/-- `str.lower()`. -/
def pyLower (s : String) : String := String.mk (s.data.map Char.toLower)

/-- `List.IsInfix` as a boolean, by scanning positions. -/
def isInfixB (needle haystack : List Char) : Bool :=
  match haystack with
  | [] => needle.isEmpty
  | _ :: t => needle.isPrefixOf haystack || isInfixB needle t

/-- Python `needle in haystack` substring test. -/
def strContains (haystack needle : String) : Bool :=
  isInfixB needle.data haystack.data

/-- Python falsiness for an optional string (`None` and `""` are falsy). -/
def strTruthy : Option String → Bool
  | none => false
  | some s => !(s = "")

/-- `a or b or ... or ""` over optional strings: the first truthy value,
else `""`. Mirrors chains like `last.get("status") or last.get("orderStatus") or ""`. -/
def pyOrStr : List (Option String) → String
  | [] => ""
  | v :: rest => if strTruthy v then v.getD "" else pyOrStr rest

/-- Python falsiness for an optional number (`None` and `0` are falsy). -/
def qTruthy : Option ℚ → Bool
  | none => false
  | some q => !(q = 0)

/-- `a or b or ... or 0` over optional numbers: the first truthy value,
else `0`. Mirrors chains like `meta.get("multiplier") or meta.get("lotSize") or "0"`
on numeric JSON values. -/
def pyOrQ : List (Option ℚ) → ℚ
  | [] => 0
  | v :: rest => if qTruthy v then v.getD 0 else pyOrQ rest

/-- `Decimal.to_integral_value(rounding=ROUND_DOWN)` followed by `int(...)`:
truncation toward zero (`Rat.floor`/`Rat.ceil` are the kernel-computable
spellings of `⌊·⌋`/`⌈·⌉`, see `pyRoundDown_eq_floor`). -/
def pyRoundDown (x : ℚ) : ℤ := if 0 ≤ x then x.floor else x.ceil

theorem ratFloor_eq (x : ℚ) : x.floor = ⌊x⌋ := by
  rw [Rat.floor_def', ← Rat.floor_def]

theorem pyRoundDown_eq_floor (x : ℚ) (h : 0 ≤ x) : pyRoundDown x = ⌊x⌋ := by
  rw [pyRoundDown, if_pos h, ratFloor_eq]

/-- `sig = (signal_type or "").strip().lower()`: the dispatcher's signal
normalisation. -/
def normSignal (signalType : String) : String := pyLower (pyStrip signalType)

/-- `execution._signal_to_sides`: maps an abstract signal to
`(side, pos_side, reduce_only)`, raising on any unsupported signal. -/
def signalToSides (signalType : String) : Except String (String × String × Bool) :=
  let sig := normSignal signalType
  if sig = "open_long" ∨ sig = "add_long" then .ok ("buy", "long", false)
  else if sig = "open_short" ∨ sig = "add_short" then .ok ("sell", "short", false)
  else if sig = "close_long" ∨ sig = "reduce_long" then .ok ("sell", "long", true)
  else if sig = "close_short" ∨ sig = "reduce_short" then .ok ("buy", "short", true)
  else .error ("Unsupported signal_type: " ++ signalType)

/-! ## KuCoin futures: contract metadata and base→contracts conversion -/

/-- The fields of a KuCoin futures contract record that
`KucoinFuturesClient` reads (JSON numbers, embedded as `ℚ`). -/
structure KucoinContractMeta where
  multiplier : Option ℚ
  lotSize : Option ℚ
  deriving Repr, DecidableEq

/-- The empty dict `{}` used when `get_contract` raises or finds nothing. -/
def KucoinContractMeta.empty : KucoinContractMeta := ⟨none, none⟩

/-- `meta = self.get_contract(symbol=sym) or {}` under `try/except`:
a failed or empty fetch collapses to the empty record. -/
def kucoinEffMeta (fetch : Except Unit KucoinContractMeta) : KucoinContractMeta :=
  match fetch with
  | .ok m => m
  | .error _ => KucoinContractMeta.empty

/-- `Decimal(str(meta.get("multiplier") or meta.get("lotSize") or "0"))`:
the multiplier the code derives from the fetched metadata, before the
positivity fallback. -/
def kucoinRawMult (fetch : Except Unit KucoinContractMeta) : ℚ :=
  let meta := kucoinEffMeta fetch
  pyOrQ [meta.multiplier, meta.lotSize]

/-- `KucoinFuturesClient._base_to_contracts`: convert a base-asset
quantity to an integer contract count, flooring, with multiplier 1 as the
fallback when metadata yields no positive multiplier. -/
def kucoinBaseToContracts (fetch : Except Unit KucoinContractMeta) (baseSize : ℚ) : ℤ :=
  let req := baseSize
  if req ≤ 0 then 0
  else
    let mult := kucoinRawMult fetch
    let mult := if mult ≤ 0 then 1 else mult
    pyRoundDown (qdiv req mult)

/-! ## Gate USDT futures: contract metadata and base→contracts conversion -/

/-- The fields of a Gate futures contract record that
`GateUsdtFuturesClient._base_to_contracts` reads. -/
structure GateContractMeta where
  quanto_multiplier : Option ℚ
  quantoMultiplier : Option ℚ
  contract_size : Option ℚ
  contractSize : Option ℚ
  deriving Repr, DecidableEq

def GateContractMeta.empty : GateContractMeta := ⟨none, none, none, none⟩

/-- `meta = self.get_contract(contract=contract) or {}` under `try/except`. -/
def gateEffMeta (fetch : Except Unit GateContractMeta) : GateContractMeta :=
  match fetch with
  | .ok m => m
  | .error _ => GateContractMeta.empty

/-- `self._to_dec(meta.get("quanto_multiplier") or meta.get("quantoMultiplier")
or meta.get("contract_size") or meta.get("contractSize") or "0")`. -/
def gateRawMult (fetch : Except Unit GateContractMeta) : ℚ :=
  let meta := gateEffMeta fetch
  pyOrQ [meta.quanto_multiplier, meta.quantoMultiplier, meta.contract_size, meta.contractSize]

/-- `GateUsdtFuturesClient._base_to_contracts`. -/
def gateBaseToContracts (fetch : Except Unit GateContractMeta) (baseSize : ℚ) : ℤ :=
  let req := baseSize
  if req ≤ 0 then 0
  else
    let qm := gateRawMult fetch
    let qm := if qm ≤ 0 then 1 else qm
    pyRoundDown (qdiv req qm)

end LiveTrading
namespace LiveTrading

/-- C1: the dispatcher's signal mapping is total and exhaustive: for every
input string, `_signal_to_sides` returns each of the four
`(side, position_side, reduce_only)` triples exactly for the corresponding
pair of normalised signals, and raises a `LiveTradingError` exactly for
every string outside the eight supported signals. -/
theorem signal_mapping_total_exhaustive (s : String) :
    (signalToSides s = .ok ("buy", "long", false) ↔
      (normSignal s = "open_long" ∨ normSignal s = "add_long"))
  ∧ (signalToSides s = .ok ("sell", "short", false) ↔
      (normSignal s = "open_short" ∨ normSignal s = "add_short"))
  ∧ (signalToSides s = .ok ("sell", "long", true) ↔
      (normSignal s = "close_long" ∨ normSignal s = "reduce_long"))
  ∧ (signalToSides s = .ok ("buy", "short", true) ↔
      (normSignal s = "close_short" ∨ normSignal s = "reduce_short"))
  ∧ ((∃ e, signalToSides s = .error e) ↔
      normSignal s ∉ (["open_long", "add_long", "open_short", "add_short",
        "close_long", "reduce_long", "close_short", "reduce_short"] : List String)) := by
  unfold signalToSides
  dsimp only
  split_ifs with h1 h2 h3 h4 <;> (try casesm* _ ∨ _) <;> simp_all

theorem signal_mapping_witness :
    signalToSides "open_long" = .ok ("buy", "long", false) :=
  (signal_mapping_total_exhaustive "open_long").1.mpr (Or.inl (by decide))

end LiveTrading
namespace LiveTrading

/-- C2: for every positive base quantity and every positive multiplier
derived from contract metadata, `_base_to_contracts` (KuCoin futures and
Gate USDT futures) computes the floor of quantity/multiplier — never
rounding up; in particular 0.0047 base at multiplier 0.001 gives exactly
4 contracts. -/
theorem base_to_contracts_floor (fk : Except Unit KucoinContractMeta)
    (fg : Except Unit GateContractMeta) (q : ℚ) (hq : 0 < q) :
    (0 < kucoinRawMult fk →
      (kucoinBaseToContracts fk q : ℚ) ≤ q / kucoinRawMult fk ∧
      q / kucoinRawMult fk < (kucoinBaseToContracts fk q : ℚ) + 1)
  ∧ (0 < gateRawMult fg →
      (gateBaseToContracts fg q : ℚ) ≤ q / gateRawMult fg ∧
      q / gateRawMult fg < (gateBaseToContracts fg q : ℚ) + 1)
  ∧ kucoinBaseToContracts (.ok ⟨some (mkRat 1 1000), none⟩) (mkRat 47 10000) = 4
  ∧ gateBaseToContracts (.ok ⟨some (mkRat 1 1000), none, none, none⟩) (mkRat 47 10000) = 4 := by
  refine ⟨fun hm => ?_, fun hm => ?_, by decide, by decide⟩
  · have hne : ¬ (q ≤ 0) := not_le.mpr hq
    have hmne : ¬ (kucoinRawMult fk ≤ 0) := not_le.mpr hm
    have hdiv : 0 ≤ q / kucoinRawMult fk := div_nonneg hq.le hm.le
    rw [kucoinBaseToContracts]
    simp only [hne, if_neg, if_false, hmne, qdiv_eq]
    rw [pyRoundDown_eq_floor _ hdiv]
    exact ⟨Int.floor_le _, Int.lt_floor_add_one _⟩
  · have hne : ¬ (q ≤ 0) := not_le.mpr hq
    have hmne : ¬ (gateRawMult fg ≤ 0) := not_le.mpr hm
    have hdiv : 0 ≤ q / gateRawMult fg := div_nonneg hq.le hm.le
    rw [gateBaseToContracts]
    simp only [hne, if_neg, if_false, hmne, qdiv_eq]
    rw [pyRoundDown_eq_floor _ hdiv]
    exact ⟨Int.floor_le _, Int.lt_floor_add_one _⟩

theorem base_to_contracts_floor_witness :
    (kucoinBaseToContracts (.ok ⟨some (mkRat 1 10), none⟩) (mkRat 1 2) : ℚ) ≤
      (mkRat 1 2) / kucoinRawMult (.ok ⟨some (mkRat 1 10), none⟩) ∧
    (mkRat 1 2) / kucoinRawMult (.ok ⟨some (mkRat 1 10), none⟩) <
      (kucoinBaseToContracts (.ok ⟨some (mkRat 1 10), none⟩) (mkRat 1 2) : ℚ) + 1 :=
  (base_to_contracts_floor (.ok ⟨some (mkRat 1 10), none⟩) (.error ()) (mkRat 1 2)
    (by decide)).1 (by decide)

end LiveTrading
namespace LiveTrading

/-- `True` on `Except.error`. -/
def isErr {ε α : Type} : Except ε α → Bool
  | .error _ => true
  | .ok _ => false

/-- `sd = (side or "").strip().lower()` side normalisation shared by all
order-placement methods. -/
def normSide (side : String) : String := pyLower (pyStrip side)

/-- `str(client_order_id or str(int(time.time() * 1000)))`: an explicit
client id if truthy, else the millisecond timestamp. -/
def clientOidOr (clientOrderId : Option String) (nowMs : ℕ) : String :=
  if strTruthy clientOrderId then clientOrderId.getD "" else toString nowMs

/-- The JSON body `KucoinFuturesClient.place_market_order` /
`place_limit_order` submit to `POST /api/v1/orders`. Boolean fields stand
for the optional `reduceOnly`/`postOnly` keys (absent = `false`); the
limit price is kept as its numeric value. -/
structure KucoinFutOrderBody where
  clientOid : String
  side : String
  symbol : String
  otype : String
  price : Option ℚ
  size : ℤ
  reduceOnly : Bool
  postOnly : Bool
  deriving Repr, DecidableEq

/-- `KucoinFuturesClient.place_market_order`, up to its single network
submission: validation, contract conversion, and the submitted body.
`toSym` is `to_kucoin_futures_symbol` (defined outside the embedded core),
`fetch` the outcome of the `get_contract` metadata fetch. -/
def kucoinPlaceMarketOrder (fetch : Except Unit KucoinContractMeta)
    (toSym : String → String) (nowMs : ℕ) (symbol side : String) (size : ℚ)
    (reduceOnly : Bool) (clientOrderId : Option String) :
    Except String KucoinFutOrderBody :=
  let sd := normSide side
  if ¬(sd = "buy" ∨ sd = "sell") then .error ("Invalid side: " ++ side)
  else
    let sym := toSym symbol
    let qtyCt := kucoinBaseToContracts fetch size
    if qtyCt ≤ 0 then .error "Invalid size (converted contracts <= 0)"
    else .ok ⟨clientOidOr clientOrderId nowMs, sd, sym, "market", none, qtyCt, reduceOnly, false⟩

/-- `KucoinFuturesClient.place_limit_order`, up to its single network
submission. -/
def kucoinPlaceLimitOrder (fetch : Except Unit KucoinContractMeta)
    (toSym : String → String) (nowMs : ℕ) (symbol side : String) (size price : ℚ)
    (reduceOnly postOnly : Bool) (clientOrderId : Option String) :
    Except String KucoinFutOrderBody :=
  let sd := normSide side
  if ¬(sd = "buy" ∨ sd = "sell") then .error ("Invalid side: " ++ side)
  else
    let sym := toSym symbol
    let px := price
    if px ≤ 0 then .error "Invalid price"
    else
      let qtyCt := kucoinBaseToContracts fetch size
      if qtyCt ≤ 0 then .error "Invalid size (converted contracts <= 0)"
      else .ok ⟨clientOidOr clientOrderId nowMs, sd, sym, "limit", some px, qtyCt, reduceOnly, postOnly⟩

/-- The JSON body `GateUsdtFuturesClient.place_market_order` /
`place_limit_order` submit to `POST /api/v4/futures/usdt/orders`: the
contract, the signed contract count (negative = sell), the price value
(`0` for market/IOC), time-in-force, and the optional flags. -/
structure GateFutOrderBody where
  contract : String
  size : ℤ
  price : ℚ
  tif : String
  reduce_only : Bool
  text : Option String
  deriving Repr, DecidableEq

/-- `GateUsdtFuturesClient.place_market_order`, up to its single network
submission. `toPair` is `to_gate_currency_pair`. -/
def gatePlaceMarketOrder (fetch : Except Unit GateContractMeta)
    (toPair : String → String) (symbol side : String) (size : ℚ)
    (reduceOnly : Bool) (clientOrderId : Option String) :
    Except String GateFutOrderBody :=
  let sd := normSide side
  if ¬(sd = "buy" ∨ sd = "sell") then .error ("Invalid side: " ++ side)
  else
    let contract := toPair symbol
    let csz := gateBaseToContracts fetch size
    if csz ≤ 0 then .error "Invalid size (converted contracts <= 0)"
    else
      let signedSize := if sd = "buy" then csz else -csz
      .ok ⟨contract, signedSize, 0, "ioc", reduceOnly, clientOrderId⟩

/-- `GateUsdtFuturesClient.place_limit_order`, up to its single network
submission. -/
def gatePlaceLimitOrder (fetch : Except Unit GateContractMeta)
    (toPair : String → String) (symbol side : String) (size price : ℚ)
    (reduceOnly : Bool) (clientOrderId : Option String) :
    Except String GateFutOrderBody :=
  let sd := normSide side
  if ¬(sd = "buy" ∨ sd = "sell") then .error ("Invalid side: " ++ side)
  else
    let contract := toPair symbol
    let csz := gateBaseToContracts fetch size
    if csz ≤ 0 then .error "Invalid size (converted contracts <= 0)"
    else
      let px := price
      if px ≤ 0 then .error "Invalid price"
      else
        let signedSize := if sd = "buy" then csz else -csz
        .ok ⟨contract, signedSize, px, "gtc", reduceOnly, clientOrderId⟩

end LiveTrading
namespace LiveTrading

theorem kucoinRawMult_unit :
    kucoinRawMult (.ok ⟨some 1, none⟩) = 1 := by decide

theorem gateRawMult_unit :
    gateRawMult (.ok ⟨some 1, none, none, none⟩) = 1 := by decide

/-- If the metadata yields no positive multiplier, the KuCoin conversion
behaves exactly as with a fetched multiplier of 1. -/
theorem kucoinBaseToContracts_fallback (fetch : Except Unit KucoinContractMeta)
    (h : kucoinRawMult fetch ≤ 0) (size : ℚ) :
    kucoinBaseToContracts fetch size = kucoinBaseToContracts (.ok ⟨some 1, none⟩) size := by
  unfold kucoinBaseToContracts
  dsimp only
  rw [kucoinRawMult_unit]
  by_cases hsz : size ≤ 0
  · simp [hsz]
  · simp only [hsz, if_false]
    rw [if_pos h, if_neg (by norm_num : ¬ (1:ℚ) ≤ 0)]

/-- Gate analogue of `kucoinBaseToContracts_fallback`. -/
theorem gateBaseToContracts_fallback (fetch : Except Unit GateContractMeta)
    (h : gateRawMult fetch ≤ 0) (size : ℚ) :
    gateBaseToContracts fetch size = gateBaseToContracts (.ok ⟨some 1, none, none, none⟩) size := by
  unfold gateBaseToContracts
  dsimp only
  rw [gateRawMult_unit]
  by_cases hsz : size ≤ 0
  · simp [hsz]
  · simp only [hsz, if_false]
    rw [if_pos h, if_neg (by norm_num : ¬ (1:ℚ) ≤ 0)]

/-- C6: a non-positive computed contract count is rejected before the
network submission by all four futures placement methods, and it arises
from a non-positive base size or from a base size below one contract's
multiplier. -/
theorem nonpositive_contracts_never_submitted
    (fetchK : Except Unit KucoinContractMeta) (fetchG : Except Unit GateContractMeta)
    (toSym toPair : String → String) (nowMs : ℕ) (symbol side : String)
    (size price : ℚ) (ro po : Bool) (coid : Option String) :
    (kucoinBaseToContracts fetchK size ≤ 0 →
      isErr (kucoinPlaceMarketOrder fetchK toSym nowMs symbol side size ro coid) = true ∧
      isErr (kucoinPlaceLimitOrder fetchK toSym nowMs symbol side size price ro po coid) = true)
  ∧ (gateBaseToContracts fetchG size ≤ 0 →
      isErr (gatePlaceMarketOrder fetchG toPair symbol side size ro coid) = true ∧
      isErr (gatePlaceLimitOrder fetchG toPair symbol side size price ro coid) = true)
  ∧ (size ≤ 0 →
      kucoinBaseToContracts fetchK size ≤ 0 ∧ gateBaseToContracts fetchG size ≤ 0)
  ∧ (0 < kucoinRawMult fetchK → size < kucoinRawMult fetchK →
      kucoinBaseToContracts fetchK size ≤ 0)
  ∧ (0 < gateRawMult fetchG → size < gateRawMult fetchG →
      gateBaseToContracts fetchG size ≤ 0) := by
  refine ⟨fun hk => ⟨?_, ?_⟩, fun hg => ⟨?_, ?_⟩, fun hsz => ⟨?_, ?_⟩, fun hm hlt => ?_, fun hm hlt => ?_⟩
  · unfold kucoinPlaceMarketOrder; dsimp only; split_ifs <;> simp_all [isErr]
  · unfold kucoinPlaceLimitOrder; dsimp only; split_ifs <;> simp_all [isErr]
  · unfold gatePlaceMarketOrder; dsimp only; split_ifs <;> simp_all [isErr]
  · unfold gatePlaceLimitOrder; dsimp only; split_ifs <;> simp_all [isErr]
  · unfold kucoinBaseToContracts; simp [hsz]
  · unfold gateBaseToContracts; simp [hsz]
  · unfold kucoinBaseToContracts
    dsimp only
    by_cases hsz : size ≤ 0
    · simp [hsz]
    · simp only [hsz, if_false]
      rw [if_neg (not_le.mpr hm), qdiv_eq,
        pyRoundDown_eq_floor _ (div_nonneg (not_le.mp hsz).le hm.le)]
      exact le_of_eq (Int.floor_eq_zero_iff.mpr
        ⟨div_nonneg (not_le.mp hsz).le hm.le, (div_lt_one hm).mpr hlt⟩)
  · unfold gateBaseToContracts
    dsimp only
    by_cases hsz : size ≤ 0
    · simp [hsz]
    · simp only [hsz, if_false]
      rw [if_neg (not_le.mpr hm), qdiv_eq,
        pyRoundDown_eq_floor _ (div_nonneg (not_le.mp hsz).le hm.le)]
      exact le_of_eq (Int.floor_eq_zero_iff.mpr
        ⟨div_nonneg (not_le.mp hsz).le hm.le, (div_lt_one hm).mpr hlt⟩)

theorem nonpositive_contracts_witness :
    isErr (kucoinPlaceMarketOrder (.ok ⟨some 1, none⟩) id 0 "BTC/USDT" "buy"
      (mkRat 1 2) false none) = true ∧
    isErr (gatePlaceMarketOrder (.ok ⟨some 1, none, none, none⟩) id "BTC/USDT" "buy"
      (mkRat 1 2) false none) = true :=
  ⟨((nonpositive_contracts_never_submitted (.ok ⟨some 1, none⟩)
      (.ok ⟨some 1, none, none, none⟩) id id 0 "BTC/USDT" "buy"
      (mkRat 1 2) (mkRat 1 2) false false none).1 (by decide)).1,
   ((nonpositive_contracts_never_submitted (.ok ⟨some 1, none⟩)
      (.ok ⟨some 1, none, none, none⟩) id id 0 "BTC/USDT" "buy"
      (mkRat 1 2) (mkRat 1 2) false false none).2.1 (by decide)).1⟩

end LiveTrading
namespace LiveTrading

/-- C10: when the metadata fetch fails, returns nothing, or yields a
non-positive multiplier, `_base_to_contracts` silently substitutes
multiplier 1 — every positive base quantity becomes `⌊q⌋` contracts — and
the public order placement is indistinguishable from a fetched
multiplier of exactly 1. -/
theorem metadata_fallback_unit_multiplier
    (fetchK : Except Unit KucoinContractMeta) (fetchG : Except Unit GateContractMeta)
    (q : ℚ) (hq : 0 < q)
    (hk : kucoinRawMult fetchK ≤ 0) (hg : gateRawMult fetchG ≤ 0) :
    kucoinBaseToContracts fetchK q = ⌊q⌋
  ∧ gateBaseToContracts fetchG q = ⌊q⌋
  ∧ (∀ toSym nowMs symbol side size ro coid,
      kucoinPlaceMarketOrder fetchK toSym nowMs symbol side size ro coid =
        kucoinPlaceMarketOrder (.ok ⟨some 1, none⟩) toSym nowMs symbol side size ro coid)
  ∧ (∀ toPair symbol side size ro coid,
      gatePlaceMarketOrder fetchG toPair symbol side size ro coid =
        gatePlaceMarketOrder (.ok ⟨some 1, none, none, none⟩) toPair symbol side size ro coid) := by
  refine ⟨?_, ?_, ?_, ?_⟩
  · unfold kucoinBaseToContracts
    dsimp only
    rw [if_neg (not_le.mpr hq), if_pos hk, qdiv_eq, div_one,
      pyRoundDown_eq_floor _ hq.le]
  · unfold gateBaseToContracts
    dsimp only
    rw [if_neg (not_le.mpr hq), if_pos hg, qdiv_eq, div_one,
      pyRoundDown_eq_floor _ hq.le]
  · intro toSym nowMs symbol side size ro coid
    simp only [kucoinPlaceMarketOrder, kucoinBaseToContracts_fallback fetchK hk]
  · intro toPair symbol side size ro coid
    simp only [gatePlaceMarketOrder, gateBaseToContracts_fallback fetchG hg]

theorem metadata_fallback_witness :
    kucoinBaseToContracts (.error ()) (mkRat 7 2) = ⌊(mkRat 7 2 : ℚ)⌋ ∧
    gateBaseToContracts (.error ()) (mkRat 7 2) = ⌊(mkRat 7 2 : ℚ)⌋ ∧
    kucoinBaseToContracts (.error ()) (mkRat 7 2) = 3 :=
  ⟨(metadata_fallback_unit_multiplier (.error ()) (.error ()) (mkRat 7 2)
      (by decide) (by decide) (by decide)).1,
   (metadata_fallback_unit_multiplier (.error ()) (.error ()) (mkRat 7 2)
      (by decide) (by decide) (by decide)).2.1,
   by decide⟩

end LiveTrading
namespace LiveTrading

/-- The concrete client classes the dispatcher's `isinstance` chain can
receive (one constructor per class constructed by the factory). -/
inductive ClientKind where
  | binanceFutures | binanceSpot | okx | bitgetMix | bitgetSpot | bybit
  | coinbaseExchange | kraken | krakenFutures | kucoinSpot | kucoinFutures
  | gateSpot | gateFutures | bitfinex | bitfinexDeriv
  deriving Repr, DecidableEq

/-- The `isinstance` branch of `place_order_from_signal` that a client of
the given class reaches, in the chain's source order. Every class matches
the branch testing its own class, except `BitfinexDerivativesClient`,
which subclasses `BitfinexClient` and is therefore caught by the earlier
`isinstance(client, BitfinexClient)` test. -/
def dispatchBranch : ClientKind → String
  | .binanceFutures => "BinanceFuturesClient"
  | .okx => "OkxClient"
  | .bitgetMix => "BitgetMixClient"
  | .binanceSpot => "BinanceSpotClient"
  | .bitgetSpot => "BitgetSpotClient"
  | .bybit => "BybitClient"
  | .coinbaseExchange => "CoinbaseExchangeClient"
  | .kraken => "KrakenClient"
  | .kucoinSpot => "KucoinSpotClient"
  | .kucoinFutures => "KucoinFuturesClient"
  | .gateSpot => "GateSpotClient"
  | .gateFutures => "GateUsdtFuturesClient"
  | .bitfinex => "BitfinexClient"
  | .bitfinexDeriv => "BitfinexClient"
  | .krakenFutures => "KrakenFuturesClient"

/-- `side="BUY" if side == "buy" else "SELL"` (Binance branches). -/
def sideUpper (side : String) : String := if side = "buy" then "BUY" else "SELL"

/-- The adapter invocation `place_order_from_signal` performs once its
validation prefix has passed: which branch ran, and the side /
position-side / reduce-only / quantity arguments it forwarded (`none`
when the branch does not pass that parameter). Exchange-specific extras
(margin mode, margin coin, product type) are sourced from the per-call
configuration and not modelled — no claim mentions them. -/
structure DispatchedCall where
  branch : String
  side : String
  posSide : Option String
  qty : ℚ
  reduceOnly : Option Bool
  clientOrderId : Option String
  deriving Repr, DecidableEq

/-- The per-branch argument shapes of the dispatch chain. -/
def dispatchCall (kind : ClientKind) (side posSide : String) (reduceOnly : Bool)
    (qty : ℚ) (coid : Option String) : DispatchedCall :=
  match kind with
  | .binanceFutures => ⟨dispatchBranch kind, sideUpper side, some posSide, qty, some reduceOnly, coid⟩
  | .okx => ⟨dispatchBranch kind, side, some posSide, qty, some reduceOnly, coid⟩
  | .bitgetMix => ⟨dispatchBranch kind, side, none, qty, some reduceOnly, coid⟩
  | .binanceSpot => ⟨dispatchBranch kind, sideUpper side, none, qty, none, coid⟩
  | .bitgetSpot => ⟨dispatchBranch kind, side, none, qty, none, coid⟩
  | .bybit => ⟨dispatchBranch kind, side, none, qty, some reduceOnly, coid⟩
  | .coinbaseExchange => ⟨dispatchBranch kind, side, none, qty, none, coid⟩
  | .kraken => ⟨dispatchBranch kind, side, none, qty, none, coid⟩
  | .kucoinSpot => ⟨dispatchBranch kind, side, none, qty, none, coid⟩
  | .kucoinFutures => ⟨dispatchBranch kind, side, none, qty, some reduceOnly, coid⟩
  | .gateSpot => ⟨dispatchBranch kind, side, none, qty, none, coid⟩
  | .gateFutures => ⟨dispatchBranch kind, side, none, qty, some reduceOnly, coid⟩
  | .bitfinex => ⟨dispatchBranch kind, side, none, qty, none, coid⟩
  | .bitfinexDeriv => ⟨dispatchBranch kind, side, none, qty, none, coid⟩
  | .krakenFutures => ⟨dispatchBranch kind, side, none, qty, some reduceOnly, coid⟩

/-- `mt` as computed by `place_order_from_signal`:
`(market_type or cfg.get("market_type") or "swap").strip().lower()`, with
the futures/future/perp/perpetual aliases normalised to `"swap"`. -/
def computeMt (marketType : String) (cfgMarketType : Option String) : String :=
  let mt0 := pyLower (pyStrip (pyOrStr [some marketType, cfgMarketType, some "swap"]))
  if mt0 = "futures" ∨ mt0 = "future" ∨ mt0 = "perp" ∨ mt0 = "perpetual" then "swap" else mt0

/-- `execution.place_order_from_signal`: amount validation, signal
mapping, market-type normalisation, the spot-short rejection, then the
`isinstance` dispatch (embedded as the forwarded invocation). -/
def placeOrderFromSignal (kind : ClientKind) (signalType : String) (amount : ℚ)
    (marketType : String) (cfgMarketType : Option String)
    (clientOrderId : Option String) : Except String DispatchedCall :=
  let qty := amount
  if qty ≤ 0 then .error "Invalid amount"
  else
    match signalToSides signalType with
    | .error e => .error e
    | .ok (side, posSide, reduceOnly) =>
      let mt := computeMt marketType cfgMarketType
      if mt = "spot" ∧ strContains (pyLower signalType) "short" = true then
        .error "spot market does not support short signals"
      else .ok (dispatchCall kind side posSide reduceOnly qty clientOrderId)

/-- C5: for every client class, positive amount and short-side signal,
a market type normalising to `"spot"` makes `place_order_from_signal`
raise before any adapter order-placement call is reached. -/
theorem spot_rejects_short_signals (kind : ClientKind) (signalType : String)
    (amount : ℚ) (marketType : String) (cfgMarketType coid : Option String)
    (hamt : 0 < amount)
    (hsig : signalType = "open_short" ∨ signalType = "add_short" ∨
      signalType = "close_short" ∨ signalType = "reduce_short")
    (hmt : computeMt marketType cfgMarketType = "spot") :
    placeOrderFromSignal kind signalType amount marketType cfgMarketType coid =
      .error "spot market does not support short signals" := by
  have hq : ¬ (amount ≤ 0) := not_le.mpr hamt
  rcases hsig with h | h | h | h <;> subst h <;> unfold placeOrderFromSignal <;> rw [if_neg hq]
  · rw [(by decide : signalToSides "open_short" = Except.ok ("sell", "short", false))]
    dsimp only
    rw [hmt, if_pos ⟨rfl, by decide⟩]
  · rw [(by decide : signalToSides "add_short" = Except.ok ("sell", "short", false))]
    dsimp only
    rw [hmt, if_pos ⟨rfl, by decide⟩]
  · rw [(by decide : signalToSides "close_short" = Except.ok ("buy", "short", true))]
    dsimp only
    rw [hmt, if_pos ⟨rfl, by decide⟩]
  · rw [(by decide : signalToSides "reduce_short" = Except.ok ("buy", "short", true))]
    dsimp only
    rw [hmt, if_pos ⟨rfl, by decide⟩]

theorem spot_rejects_short_witness :
    placeOrderFromSignal .kraken "open_short" 1 "spot" none none =
      .error "spot market does not support short signals" :=
  spot_rejects_short_signals .kraken "open_short" 1 "spot" none none
    (by norm_num) (Or.inl rfl) (by decide)

end LiveTrading
namespace LiveTrading

/-- Kernel-computable `(n : ℕ) → ℚ` cast; `qofNat_eq` proves it is `Nat.cast`. -/
def qofNat (n : ℕ) : ℚ := mkRat n 1

theorem qofNat_eq (n : ℕ) : qofNat n = (n : ℚ) := by
  simp [qofNat]

/-- Kernel-computable absolute value on `ℚ` (`abs(...)` in the sources). -/
def qabs (a : ℚ) : ℚ := if a < 0 then -a else a

/-- The `{filled, avg_price, status}` triple each `wait_for_fill`
derives on every poll iteration. -/
structure FillInfo where
  filled : ℚ
  avg : ℚ
  status : String
  deriving Repr, DecidableEq

/-- The fill-polling loop skeleton shared by every adapter's
`wait_for_fill` (`while True: try: fetch / except: keep last; derive
(filled, avg_price, status); return if filled>0 and avg>0; return if the
adapter's terminal test holds; return if the deadline is reached; sleep`).

Time is the idealised monotone clock in which iteration `i` performs its
deadline check `time.time() >= end_ts` at `start + i * poll_interval`
(each `time.sleep(poll_interval)` advances the clock by exactly the poll
interval and everything else is instantaneous), so the check is
`maxWait ≤ i * pollI`.

`poll i` is the outcome of the `get_order` fetch of iteration `i`
(`Except.error` = the fetch raised: the exception is swallowed and the
previous record kept, exactly as the `try/except` does); `extract`
derives the adapter-specific `FillInfo` from the current record;
`terminal` is the adapter's native terminal-status test. The result
`some (i, fi)` means the loop returned on iteration `i` — after an
elapsed time of `i * pollI` — with derived values `fi`; `fuel` bounds the
iterations modelled, and `none` means the fuel ran out before a return
(the bounded-latency theorem shows sufficient fuel for every input). -/
def waitForFillLoop {α : Type} (poll : ℕ → Except Unit α)
    (extract : α → FillInfo) (terminal : α → Bool)
    (maxWait pollI : ℚ) : ℕ → α → ℕ → Option (ℕ × FillInfo)
  | 0, _, _ => none
  | fuel+1, last, i =>
    let cur := match poll i with
      | .ok r => r
      | .error _ => last
    let fi := extract cur
    if 0 < fi.filled ∧ 0 < fi.avg then some (i, fi)
    else if terminal cur then some (i, fi)
    else if maxWait ≤ qmul (qofNat i) pollI then some (i, fi)
    else waitForFillLoop poll extract terminal maxWait pollI fuel cur (i+1)

theorem waitLoop_some {α : Type} (poll : ℕ → Except Unit α)
    (extract : α → FillInfo) (terminal : α → Bool) (maxWait pollI : ℚ) :
    ∀ (fuel i : ℕ) (last : α),
      maxWait ≤ ((i + fuel : ℕ) : ℚ) * pollI →
      (waitForFillLoop poll extract terminal maxWait pollI (fuel + 1) last i).isSome := by
  intro fuel
  induction fuel with
  | zero =>
    intro i last h
    rw [waitForFillLoop]
    split_ifs with h1 h2 h3 <;> simp_all [qmul_eq, qofNat_eq]
  | succ f ih =>
    intro i last h
    rw [waitForFillLoop]
    split_ifs with h1 h2 h3
    · simp
    · simp
    · simp
    · exact ih (i + 1) _ (by push_cast at h ⊢; linarith)

theorem waitLoop_return_index {α : Type} (poll : ℕ → Except Unit α)
    (extract : α → FillInfo) (terminal : α → Bool) (maxWait pollI : ℚ) :
    ∀ (fuel i : ℕ) (last : α) (j : ℕ) (fi : FillInfo),
      waitForFillLoop poll extract terminal maxWait pollI fuel last i = some (j, fi) →
      j = i ∨ ∃ k, j = k + 1 ∧ ¬ maxWait ≤ (k : ℚ) * pollI := by
  intro fuel
  induction fuel with
  | zero => intro i last j fi h; rw [waitForFillLoop] at h; exact absurd h (by simp)
  | succ f ih =>
    intro i last j fi h
    rw [waitForFillLoop] at h
    split_ifs at h with h1 h2 h3
    · exact Or.inl (by injection h with h'; injection h' with h1 h2; omega)
    · exact Or.inl (by injection h with h'; injection h' with h1 h2; omega)
    · exact Or.inl (by injection h with h'; injection h' with h1 h2; omega)
    · rcases ih (i + 1) _ j fi h with hj | hj
      · exact Or.inr ⟨i, hj, by rw [qmul_eq, qofNat_eq] at h3; exact h3⟩
      · exact Or.inr hj

theorem waitLoop_zero_wait {α : Type} (poll : ℕ → Except Unit α)
    (extract : α → FillInfo) (terminal : α → Bool) (maxWait pollI : ℚ)
    (fuel : ℕ) (init : α) (h0 : maxWait ≤ 0) :
    ∃ fi, waitForFillLoop poll extract terminal maxWait pollI (fuel + 1) init 0 =
      some (0, fi) := by
  rw [waitForFillLoop]
  split_ifs with h1 h2 h3
  · exact ⟨_, rfl⟩
  · exact ⟨_, rfl⟩
  · exact ⟨_, rfl⟩
  · exact absurd (by rw [qmul_eq, qofNat_eq]; push_cast; simpa using h0) h3

end LiveTrading
namespace LiveTrading

/-- C3: for every adapter instantiation of the polling skeleton (any
record type, any fill derivation, any terminal test — hence also any
number of swallowed poll exceptions), any `max_wait_sec ≥ 0` and
`poll_interval_sec > 0`: with `⌈maxWait/pollI⌉ + 1` iterations of fuel
the loop returns, the elapsed time `i * pollI` at return is at most
`maxWait + pollI`, and with `maxWait = 0` it returns on iteration 0 —
after the first poll outcome, with no sleep. -/
theorem wait_for_fill_bounded_latency {α : Type} (poll : ℕ → Except Unit α)
    (extract : α → FillInfo) (terminal : α → Bool)
    (maxWait pollI : ℚ) (init : α)
    (hmw : 0 ≤ maxWait) (hpi : 0 < pollI) :
    ∃ i fi,
      waitForFillLoop poll extract terminal maxWait pollI (⌈maxWait / pollI⌉₊ + 1) init 0 =
        some (i, fi)
      ∧ (i : ℚ) * pollI ≤ maxWait + pollI
      ∧ (maxWait = 0 → i = 0) := by
  have hfuel : maxWait ≤ ((0 + ⌈maxWait / pollI⌉₊ : ℕ) : ℚ) * pollI := by
    push_cast
    have h1 : maxWait / pollI ≤ (⌈maxWait / pollI⌉₊ : ℚ) := Nat.le_ceil _
    calc maxWait = maxWait / pollI * pollI := (div_mul_cancel₀ _ hpi.ne').symm
      _ ≤ (⌈maxWait / pollI⌉₊ : ℚ) * pollI := mul_le_mul_of_nonneg_right h1 hpi.le
      _ = (0 + (⌈maxWait / pollI⌉₊ : ℚ)) * pollI := by ring
  have hs := waitLoop_some poll extract terminal maxWait pollI (⌈maxWait / pollI⌉₊) 0 init hfuel
  obtain ⟨⟨i, fi⟩, hval⟩ := Option.isSome_iff_exists.mp hs
  refine ⟨i, fi, hval, ?_, ?_⟩
  · rcases waitLoop_return_index poll extract terminal maxWait pollI _ 0 init i fi hval
      with h0 | ⟨k, rfl, hk⟩
    · subst h0
      push_cast
      nlinarith
    · have hk' := not_le.mp hk
      push_cast
      nlinarith
  · intro hmw0
    obtain ⟨fi', hfi'⟩ := waitLoop_zero_wait poll extract terminal maxWait pollI _ init
      (le_of_eq hmw0)
    rw [hval] at hfi'
    injection hfi' with h
    injection h with h1 h2

theorem wait_for_fill_bounded_witness :
    ∃ i fi,
      waitForFillLoop (fun _ => (.error () : Except Unit Unit)) (fun _ => ⟨0, 0, ""⟩)
        (fun _ => false) 1 (mkRat 1 2) (⌈(1:ℚ) / mkRat 1 2⌉₊ + 1) () 0 = some (i, fi)
      ∧ (i : ℚ) * mkRat 1 2 ≤ 1 + mkRat 1 2 ∧ ((1:ℚ) = 0 → i = 0) :=
  wait_for_fill_bounded_latency (fun _ => .error ()) (fun _ => ⟨0, 0, ""⟩)
    (fun _ => false) 1 (mkRat 1 2) () (by norm_num) (by decide)

end LiveTrading
namespace LiveTrading

/-- `a or b or ... or dflt` over optional numbers with an explicit
default (e.g. `meta.get("multiplier") or meta.get("lotSize") or 1.0`). -/
def pyOrQDefault (vals : List (Option ℚ)) (dflt : ℚ) : ℚ :=
  match vals with
  | [] => dflt
  | v :: rest => if qTruthy v then v.getD 0 else pyOrQDefault rest dflt

/-- The fields of a Kraken spot `QueryOrders` record read by
`KrakenClient.wait_for_fill`. -/
structure KrakenOrderRecord where
  status : Option String
  vol_exec : Option ℚ
  cost : Option ℚ
  deriving Repr, DecidableEq

/-- The per-iteration fill derivation of `KrakenClient.wait_for_fill`:
`filled = vol_exec`, `avg = cost / filled` when both are positive. -/
def krakenExtract (od : KrakenOrderRecord) : FillInfo :=
  let status := pyOrStr [od.status]
  let filled := pyOrQ [od.vol_exec]
  let cost := pyOrQ [od.cost]
  let avg := if 0 < filled ∧ 0 < cost then qdiv cost filled else 0
  ⟨filled, avg, status⟩

/-- `status.lower() in ("closed", "canceled", "cancelled", "expired")`. -/
def krakenTerminal (od : KrakenOrderRecord) : Bool :=
  ["closed", "canceled", "cancelled", "expired"].contains (pyLower (pyOrStr [od.status]))

/-- `KrakenClient.wait_for_fill` as an instance of the polling skeleton
(initial `last = {}`). -/
def krakenWaitForFill (poll : ℕ → Except Unit KrakenOrderRecord)
    (maxWait pollI : ℚ) (fuel : ℕ) : Option (ℕ × FillInfo) :=
  waitForFillLoop poll krakenExtract krakenTerminal maxWait pollI fuel ⟨none, none, none⟩ 0

/-- The fields of a Gate futures order record read by
`GateUsdtFuturesClient.wait_for_fill`. -/
structure GateFutOrderRecord where
  status : Option String
  filled_size : Option ℚ
  filledSize : Option ℚ
  fill_price : Option ℚ
  fillPrice : Option ℚ
  price : Option ℚ
  deriving Repr, DecidableEq

/-- The quanto multiplier computed once before the Gate polling loop:
`_to_dec(meta.get("quanto_multiplier") or meta.get("contract_size") or "1")`,
with 1 on a failed fetch or a non-positive value. -/
def gateWaitQm (fetch : Except Unit GateContractMeta) : ℚ :=
  match fetch with
  | .error _ => 1
  | .ok m =>
    let qm := pyOrQDefault [m.quanto_multiplier, m.contract_size] 1
    if qm ≤ 0 then 1 else qm

/-- The per-iteration fill derivation of `GateUsdtFuturesClient.wait_for_fill`:
`filled = |filled_size| * qm` (contracts to base), `avg` from the first
truthy of `fill_price`/`fillPrice`/`price`. -/
def gateFutExtract (qm : ℚ) (od : GateFutOrderRecord) : FillInfo :=
  let status := pyOrStr [od.status]
  let filledCt := qabs (pyOrQ [od.filled_size, od.filledSize])
  let filled := qmul filledCt qm
  let avg := pyOrQ [od.fill_price, od.fillPrice, od.price]
  ⟨filled, avg, status⟩

/-- `str(status).lower() in ("finished", "cancelled", "canceled")`. -/
def gateFutTerminal (od : GateFutOrderRecord) : Bool :=
  ["finished", "cancelled", "canceled"].contains (pyLower (pyOrStr [od.status]))

/-- `GateUsdtFuturesClient.wait_for_fill` as an instance of the polling
skeleton. -/
def gateFutWaitForFill (fetch : Except Unit GateContractMeta)
    (poll : ℕ → Except Unit GateFutOrderRecord) (maxWait pollI : ℚ) (fuel : ℕ) :
    Option (ℕ × FillInfo) :=
  waitForFillLoop poll (gateFutExtract (gateWaitQm fetch)) gateFutTerminal maxWait pollI fuel
    ⟨none, none, none, none, none, none⟩ 0

/-- The fields of a Kraken Futures order record read by
`KrakenFuturesClient.wait_for_fill`. -/
structure KrakenFutOrderRecord where
  status : Option String
  orderStatus : Option String
  filledSize : Option ℚ
  filled_size : Option ℚ
  avgFillPrice : Option ℚ
  avg_fill_price : Option ℚ
  deriving Repr, DecidableEq

/-- `str(last.get("status") or last.get("orderStatus") or "")`. -/
def krakenFutStatus (od : KrakenFutOrderRecord) : String :=
  pyOrStr [od.status, od.orderStatus]

/-- The per-iteration fill derivation of `KrakenFuturesClient.wait_for_fill`. -/
def krakenFutExtract (od : KrakenFutOrderRecord) : FillInfo :=
  ⟨pyOrQ [od.filledSize, od.filled_size], pyOrQ [od.avgFillPrice, od.avg_fill_price],
    krakenFutStatus od⟩

/-- `status.lower() in ("filled", "cancelled", "canceled", "rejected")`. -/
def krakenFutTerminal (od : KrakenFutOrderRecord) : Bool :=
  ["filled", "cancelled", "canceled", "rejected"].contains (pyLower (krakenFutStatus od))

/-- `KrakenFuturesClient.wait_for_fill` as an instance of the polling
skeleton. -/
def krakenFutWaitForFill (poll : ℕ → Except Unit KrakenFutOrderRecord)
    (maxWait pollI : ℚ) (fuel : ℕ) : Option (ℕ × FillInfo) :=
  waitForFillLoop poll krakenFutExtract krakenFutTerminal maxWait pollI fuel
    ⟨none, none, none, none, none, none⟩ 0

/-- The inner `data` object of a KuCoin futures `get_order` response. -/
structure KucoinFutOrder where
  status : Option String
  dealSize : Option ℚ
  dealValue : Option ℚ
  symbol : Option String
  deriving Repr, DecidableEq

/-- A KuCoin futures `get_order` response; `od = (last.get("data") ...) or {}`. -/
structure KucoinFutOrderResp where
  data : Option KucoinFutOrder
  deriving Repr, DecidableEq

/-- `str(od.get("status") or "")` on the effective `data` object. -/
def kucoinFutStatus (resp : KucoinFutOrderResp) : String :=
  pyOrStr [(resp.data.getD ⟨none, none, none, none⟩).status]

/-- The per-iteration fill derivation of `KucoinFuturesClient.wait_for_fill`:
`dealSize` is in contracts, converted back to base via the best-effort
per-iteration `get_contract` multiplier (`metaFetch`, 1 on failure or a
non-positive value); `avg = dealValue / filled` when both are positive. -/
def kucoinFutExtract (metaFetch : String → Except Unit KucoinContractMeta)
    (resp : KucoinFutOrderResp) : FillInfo :=
  let od := resp.data.getD ⟨none, none, none, none⟩
  let status := pyOrStr [od.status]
  let dealCt := pyOrQ [od.dealSize]
  let dealValue := pyOrQ [od.dealValue]
  let sym := pyOrStr [od.symbol]
  let mult := match metaFetch sym with
    | .error _ => 1
    | .ok m =>
      let mu := pyOrQDefault [m.multiplier, m.lotSize] 1
      if mu ≤ 0 then 1 else mu
  let filled := qmul (qabs dealCt) mult
  let avg := if 0 < filled ∧ 0 < dealValue then qdiv dealValue filled else 0
  ⟨filled, avg, status⟩

/-- `status.lower() in ("done", "canceled", "cancelled", "filled")`. -/
def kucoinFutTerminal (resp : KucoinFutOrderResp) : Bool :=
  ["done", "canceled", "cancelled", "filled"].contains (pyLower (kucoinFutStatus resp))

/-- `KucoinFuturesClient.wait_for_fill` as an instance of the polling
skeleton. -/
def kucoinFutWaitForFill (metaFetch : String → Except Unit KucoinContractMeta)
    (poll : ℕ → Except Unit KucoinFutOrderResp) (maxWait pollI : ℚ) (fuel : ℕ) :
    Option (ℕ × FillInfo) :=
  waitForFillLoop poll (kucoinFutExtract metaFetch) kucoinFutTerminal maxWait pollI fuel
    ⟨none⟩ 0

end LiveTrading
namespace LiveTrading

/-- C4: in the Kraken Futures and KuCoin futures polling loops, a poll
that yields a record whose native status passes the adapter's
case-insensitive terminal test makes the loop return on that very
iteration, with exactly the derived `FillInfo` of that record — the
status match alone terminates polling, with no condition on the derived
filled quantity or average price (both may be zero). -/
theorem terminal_status_halts_polling
    (pollKF : ℕ → Except Unit KrakenFutOrderRecord)
    (pollKC : ℕ → Except Unit KucoinFutOrderResp)
    (metaFetch : String → Except Unit KucoinContractMeta)
    (maxWait pollI : ℚ) (fuel i : ℕ)
    (lastKF : KrakenFutOrderRecord) (lastKC : KucoinFutOrderResp)
    (rKF : KrakenFutOrderRecord) (rKC : KucoinFutOrderResp)
    (hpKF : pollKF i = .ok rKF) (htKF : krakenFutTerminal rKF = true)
    (hpKC : pollKC i = .ok rKC) (htKC : kucoinFutTerminal rKC = true) :
    (waitForFillLoop pollKF krakenFutExtract krakenFutTerminal maxWait pollI
        (fuel + 1) lastKF i = some (i, krakenFutExtract rKF)
      ∧ (krakenFutExtract rKF).status = krakenFutStatus rKF)
  ∧ (waitForFillLoop pollKC (kucoinFutExtract metaFetch) kucoinFutTerminal maxWait pollI
        (fuel + 1) lastKC i = some (i, kucoinFutExtract metaFetch rKC)
      ∧ (kucoinFutExtract metaFetch rKC).status = kucoinFutStatus rKC) := by
  refine ⟨⟨?_, rfl⟩, ⟨?_, rfl⟩⟩
  · rw [waitForFillLoop, hpKF]
    split_ifs with h1
    · rfl
    · rfl
  · rw [waitForFillLoop, hpKC]
    split_ifs with h1
    · rfl
    · rfl

theorem terminal_status_halts_witness :
    waitForFillLoop (fun _ => .ok ⟨some "FILLED", none, none, none, none, none⟩)
        krakenFutExtract krakenFutTerminal 1 (mkRat 1 2) 1
        ⟨none, none, none, none, none, none⟩ 0 =
      some (0, krakenFutExtract ⟨some "FILLED", none, none, none, none, none⟩)
  ∧ (krakenFutExtract ⟨some "FILLED", none, none, none, none, none⟩).filled = 0
  ∧ (krakenFutExtract ⟨some "FILLED", none, none, none, none, none⟩).avg = 0
  ∧ waitForFillLoop (fun _ => .ok ⟨some ⟨some "done", none, none, none⟩⟩)
        (kucoinFutExtract fun _ => .error ()) kucoinFutTerminal 1 (mkRat 1 2) 1
        ⟨none⟩ 0 =
      some (0, kucoinFutExtract (fun _ => .error ()) ⟨some ⟨some "done", none, none, none⟩⟩) :=
  ⟨((terminal_status_halts_polling
      (fun _ => .ok ⟨some "FILLED", none, none, none, none, none⟩)
      (fun _ => .ok ⟨some ⟨some "done", none, none, none⟩⟩)
      (fun _ => .error ()) 1 (mkRat 1 2) 0 0
      ⟨none, none, none, none, none, none⟩ ⟨none⟩
      ⟨some "FILLED", none, none, none, none, none⟩ ⟨some ⟨some "done", none, none, none⟩⟩
      rfl (by decide) rfl (by decide)).1).1,
   by decide, by decide,
   ((terminal_status_halts_polling
      (fun _ => .ok ⟨some "FILLED", none, none, none, none, none⟩)
      (fun _ => .ok ⟨some ⟨some "done", none, none, none⟩⟩)
      (fun _ => .error ()) 1 (mkRat 1 2) 0 0
      ⟨none, none, none, none, none, none⟩ ⟨none⟩
      ⟨some "FILLED", none, none, none, none, none⟩ ⟨some ⟨some "done", none, none, none⟩⟩
      rfl (by decide) rfl (by decide)).2).1⟩

end LiveTrading
namespace LiveTrading

/-- Digits-only prefix of a client order id, as a number:
`int("".join([c for c in str(coid) if c.isdigit()])[:18] or "0")`. -/
def bfxCidNum (coid : String) : ℕ :=
  ((coid.data.filter Char.isDigit).take 18).foldl (fun a c => a * 10 + (c.toNat - 48)) 0

/-- The optional numeric `cid` field of a Bitfinex order body: present
only when a truthy client id yields a positive number. -/
def bfxCid (coid : Option String) : Option ℕ :=
  if strTruthy coid then
    let cid := bfxCidNum (coid.getD "")
    if 0 < cid then some cid else none
  else none

/-- The JSON body submitted to `POST /v2/auth/w/order/submit`
(`amount` keeps its numeric value: positive = buy, negative = sell). -/
structure BfxOrderBody where
  otype : String
  symbol : String
  amount : ℚ
  price : Option ℚ
  cid : Option ℕ
  deriving Repr, DecidableEq

/-- The FIRST `place_market_order` in the `BitfinexDerivativesClient`
class body (perp symbol, order type `"MARKET"`), up to its single
network submission. `toPerp` is `to_bitfinex_perp_symbol`. -/
def bfxDerivPlaceMarketOrderV1 (toPerp : String → String) (symbol side : String)
    (size : ℚ) (coid : Option String) : Except String BfxOrderBody :=
  let sd := normSide side
  if ¬(sd = "buy" ∨ sd = "sell") then .error ("Invalid side: " ++ side)
  else if size ≤ 0 then .error "Invalid size"
  else
    let sym := toPerp symbol
    let amt := if sd = "buy" then size else -size
    .ok ⟨"MARKET", sym, amt, none, bfxCid coid⟩

/-- The FIRST `place_limit_order` in the class body (perp symbol,
order type `"LIMIT"`). -/
def bfxDerivPlaceLimitOrderV1 (toPerp : String → String) (symbol side : String)
    (size price : ℚ) (coid : Option String) : Except String BfxOrderBody :=
  let sd := normSide side
  if ¬(sd = "buy" ∨ sd = "sell") then .error ("Invalid side: " ++ side)
  else if size ≤ 0 ∨ price ≤ 0 then .error "Invalid size/price"
  else
    let sym := toPerp symbol
    let amt := if sd = "buy" then size else -size
    .ok ⟨"LIMIT", sym, amt, some price, bfxCid coid⟩

/-- The SECOND `place_market_order` in the same class body (spot symbol
via `to_bitfinex_spot_symbol`, order type `"EXCHANGE MARKET"`). -/
def bfxDerivPlaceMarketOrderV2 (toSpot : String → String) (symbol side : String)
    (size : ℚ) (coid : Option String) : Except String BfxOrderBody :=
  let sd := normSide side
  if ¬(sd = "buy" ∨ sd = "sell") then .error ("Invalid side: " ++ side)
  else if size ≤ 0 then .error "Invalid size"
  else
    let sym := toSpot symbol
    let amt := if sd = "buy" then size else -size
    .ok ⟨"EXCHANGE MARKET", sym, amt, none, bfxCid coid⟩

/-- The SECOND `place_limit_order` in the same class body (spot symbol,
order type `"EXCHANGE LIMIT"`). -/
def bfxDerivPlaceLimitOrderV2 (toSpot : String → String) (symbol side : String)
    (size price : ℚ) (coid : Option String) : Except String BfxOrderBody :=
  let sd := normSide side
  if ¬(sd = "buy" ∨ sd = "sell") then .error ("Invalid side: " ++ side)
  else if size ≤ 0 ∨ price ≤ 0 then .error "Invalid size/price"
  else
    let sym := toSpot symbol
    let amt := if sd = "buy" then size else -size
    .ok ⟨"EXCHANGE LIMIT", sym, amt, some price, bfxCid coid⟩

/-- Python evaluates a class body top to bottom and a later `def` of the
same name rebinds the class attribute, so the method
`BitfinexDerivativesClient.place_market_order` IS the second definition;
the first is unreachable. -/
def bfxDerivPlaceMarketOrder : (String → String) → String → String → ℚ →
    Option String → Except String BfxOrderBody := bfxDerivPlaceMarketOrderV2

/-- Effective `BitfinexDerivativesClient.place_limit_order`: the second
definition, by the same class-body shadowing. -/
def bfxDerivPlaceLimitOrder : (String → String) → String → String → ℚ → ℚ →
    Option String → Except String BfxOrderBody := bfxDerivPlaceLimitOrderV2

theorem bfxV2Market_ok {toSpot : String → String} {symbol side : String}
    {size : ℚ} {coid : Option String} {b : BfxOrderBody}
    (hb : bfxDerivPlaceMarketOrderV2 toSpot symbol side size coid = .ok b) :
    b = ⟨"EXCHANGE MARKET", toSpot symbol,
      (if normSide side = "buy" then size else -size), none, bfxCid coid⟩ := by
  unfold bfxDerivPlaceMarketOrderV2 at hb
  by_cases h1 : ¬(normSide side = "buy" ∨ normSide side = "sell")
  · rw [if_pos h1] at hb; cases hb
  · rw [if_neg h1] at hb
    by_cases h2 : size ≤ 0
    · rw [if_pos h2] at hb; cases hb
    · rw [if_neg h2] at hb; cases hb; rfl

theorem bfxV1Market_ok {toPerp : String → String} {symbol side : String}
    {size : ℚ} {coid : Option String} {b : BfxOrderBody}
    (hb : bfxDerivPlaceMarketOrderV1 toPerp symbol side size coid = .ok b) :
    b = ⟨"MARKET", toPerp symbol,
      (if normSide side = "buy" then size else -size), none, bfxCid coid⟩ := by
  unfold bfxDerivPlaceMarketOrderV1 at hb
  by_cases h1 : ¬(normSide side = "buy" ∨ normSide side = "sell")
  · rw [if_pos h1] at hb; cases hb
  · rw [if_neg h1] at hb
    by_cases h2 : size ≤ 0
    · rw [if_pos h2] at hb; cases hb
    · rw [if_neg h2] at hb; cases hb; rfl

theorem bfxV2Limit_ok {toSpot : String → String} {symbol side : String}
    {size price : ℚ} {coid : Option String} {b : BfxOrderBody}
    (hb : bfxDerivPlaceLimitOrderV2 toSpot symbol side size price coid = .ok b) :
    b = ⟨"EXCHANGE LIMIT", toSpot symbol,
      (if normSide side = "buy" then size else -size), some price, bfxCid coid⟩ := by
  unfold bfxDerivPlaceLimitOrderV2 at hb
  by_cases h1 : ¬(normSide side = "buy" ∨ normSide side = "sell")
  · rw [if_pos h1] at hb; cases hb
  · rw [if_neg h1] at hb
    by_cases h2 : size ≤ 0 ∨ price ≤ 0
    · rw [if_pos h2] at hb; cases hb
    · rw [if_neg h2] at hb; cases hb; rfl

theorem bfxV1Limit_ok {toPerp : String → String} {symbol side : String}
    {size price : ℚ} {coid : Option String} {b : BfxOrderBody}
    (hb : bfxDerivPlaceLimitOrderV1 toPerp symbol side size price coid = .ok b) :
    b = ⟨"LIMIT", toPerp symbol,
      (if normSide side = "buy" then size else -size), some price, bfxCid coid⟩ := by
  unfold bfxDerivPlaceLimitOrderV1 at hb
  by_cases h1 : ¬(normSide side = "buy" ∨ normSide side = "sell")
  · rw [if_pos h1] at hb; cases hb
  · rw [if_neg h1] at hb
    by_cases h2 : size ≤ 0 ∨ price ≤ 0
    · rw [if_pos h2] at hb; cases hb
    · rw [if_neg h2] at hb; cases hb; rfl

/-- C9: the effective order placement of `BitfinexDerivativesClient` is
the later, spot-style definition: every submitted body uses the spot
symbol mapping and types `"EXCHANGE MARKET"`/`"EXCHANGE LIMIT"`, and it
never coincides with what the shadowed perp-style first definition would
have submitted (the order types differ). -/
theorem bitfinex_deriv_shadowed_by_spot (toSpot toPerp : String → String)
    (symbol side : String) (size price : ℚ) (coid : Option String) :
    bfxDerivPlaceMarketOrder = bfxDerivPlaceMarketOrderV2
  ∧ bfxDerivPlaceLimitOrder = bfxDerivPlaceLimitOrderV2
  ∧ (∀ b, bfxDerivPlaceMarketOrder toSpot symbol side size coid = .ok b →
      b.otype = "EXCHANGE MARKET" ∧ b.symbol = toSpot symbol)
  ∧ (∀ b, bfxDerivPlaceLimitOrder toSpot symbol side size price coid = .ok b →
      b.otype = "EXCHANGE LIMIT" ∧ b.symbol = toSpot symbol)
  ∧ (∀ b b', bfxDerivPlaceMarketOrder toSpot symbol side size coid = .ok b →
      bfxDerivPlaceMarketOrderV1 toPerp symbol side size coid = .ok b' → b ≠ b')
  ∧ (∀ b b', bfxDerivPlaceLimitOrder toSpot symbol side size price coid = .ok b →
      bfxDerivPlaceLimitOrderV1 toPerp symbol side size price coid = .ok b' → b ≠ b') := by
  refine ⟨rfl, rfl, ?_, ?_, ?_, ?_⟩
  · intro b hb
    rw [bfxV2Market_ok hb]
    exact ⟨rfl, rfl⟩
  · intro b hb
    rw [bfxV2Limit_ok hb]
    exact ⟨rfl, rfl⟩
  · intro b b' hb hb'
    rw [bfxV2Market_ok hb, bfxV1Market_ok hb']
    intro he
    have h := congrArg BfxOrderBody.otype he
    dsimp only at h
    exact absurd h (by decide)
  · intro b b' hb hb'
    rw [bfxV2Limit_ok hb, bfxV1Limit_ok hb']
    intro he
    have h := congrArg BfxOrderBody.otype he
    dsimp only at h
    exact absurd h (by decide)

theorem bitfinex_deriv_shadowed_witness :
    bfxDerivPlaceMarketOrder (fun s => "t" ++ s) "BTCUSD" "buy" 1 none =
      .ok ⟨"EXCHANGE MARKET", "tBTCUSD", 1, none, none⟩
  ∧ (⟨"EXCHANGE MARKET", "tBTCUSD", 1, none, none⟩ : BfxOrderBody).otype =
      "EXCHANGE MARKET" :=
  ⟨by decide,
   ((bitfinex_deriv_shadowed_by_spot (fun s => "t" ++ s) (fun s => s ++ "F0")
      "BTCUSD" "buy" 1 1 none).2.2.1 ⟨"EXCHANGE MARKET", "tBTCUSD", 1, none, none⟩
      (by decide)).1⟩

end LiveTrading
namespace LiveTrading

/-- `factory._get(cfg, *keys)`: the first key whose value is present and
non-empty after stripping, stripped; else `""`. -/
def cfgGet : List (Option String) → String
  | [] => ""
  | none :: rest => cfgGet rest
  | some x :: rest => if pyStrip x = "" then cfgGet rest else pyStrip x

/-- The configuration dictionary fields `create_client` reads. String
values; `recv_window_ms`/`recvWindow` are numeric. -/
structure ExchangeConfig where
  exchange_id : Option String
  exchangeId : Option String
  api_key : Option String
  apiKey : Option String
  secret_key : Option String
  secret : Option String
  passphrase : Option String
  password : Option String
  base_url : Option String
  baseUrl : Option String
  futures_base_url : Option String
  futuresBaseUrl : Option String
  market_type : Option String
  defaultType : Option String
  channel_api_code : Option String
  channelApiCode : Option String
  recv_window_ms : Option ℤ
  recvWindow : Option ℤ

/-- `_get(exchange_config, "exchange_id", "exchangeId").lower()`. -/
def factoryExchangeId (cfg : ExchangeConfig) : String :=
  pyLower (cfgGet [cfg.exchange_id, cfg.exchangeId])

/-- `mt` as computed by `create_client`: `(market_type or
cfg.get("market_type") or cfg.get("defaultType") or "swap").strip().lower()`,
futures aliases normalised to `"swap"`. -/
def factoryMt (cfg : ExchangeConfig) (marketType : String) : String :=
  let mt0 := pyLower (pyStrip (pyOrStr [some marketType, cfg.market_type, cfg.defaultType, some "swap"]))
  if mt0 = "futures" ∨ mt0 = "future" ∨ mt0 = "perp" ∨ mt0 = "perpetual" then "swap" else mt0

/-- `_get(cfg, "base_url", "baseUrl") or dflt`. -/
def baseUrlOr (a b : Option String) (dflt : String) : String :=
  let u := cfgGet [a, b]
  if u = "" then dflt else u

/-- `int(cfg.get(k1) or cfg.get(k2) or dflt)` on numeric fields. -/
def pyOrIntDefault (vals : List (Option ℤ)) (dflt : ℤ) : ℤ :=
  match vals with
  | [] => dflt
  | v :: rest => if v.getD 0 ≠ 0 then v.getD 0 else pyOrIntDefault rest dflt

/-- Constructor state of an adapter holding `api_key`/`secret_key`
(both stripped). -/
structure KeySecretState where
  apiKey : String
  secretKey : String
  deriving Repr, DecidableEq

/-- Constructor state of an adapter additionally holding a passphrase. -/
structure KeySecretPassState where
  apiKey : String
  secretKey : String
  passphrase : String
  deriving Repr, DecidableEq

/-- `KrakenClient` state: the secret is base64-decoded at construction
and the decoded bytes are what `_sign` later keys HMAC with. -/
structure KrakenState where
  apiKey : String
  secretKey : String
  secretBytes : List ℕ
  deriving Repr, DecidableEq

/-- `CoinbaseExchangeClient` state (same construction-time decode). -/
structure CoinbaseState where
  apiKey : String
  secretKey : String
  passphrase : String
  secretBytes : List ℕ
  deriving Repr, DecidableEq

/-- The shared `__init__` shape of `KrakenFuturesClient`, `_GateBase` and
`BitfinexClient`: strip both credentials, raise the client's
`Missing ...` error when either is empty. -/
def keySecretInit (errMsg : String) (apiKey secretKey : String) :
    Except String KeySecretState :=
  let k := pyStrip apiKey
  let s := pyStrip secretKey
  if k = "" ∨ s = "" then .error errMsg else .ok ⟨k, s⟩

/-- The shared `__init__` shape of `KucoinSpotClient` and
`KucoinFuturesClient` (three required credentials). -/
def keySecretPassInit (errMsg : String) (apiKey secretKey passphrase : String) :
    Except String KeySecretPassState :=
  let k := pyStrip apiKey
  let s := pyStrip secretKey
  let p := pyStrip passphrase
  if k = "" ∨ s = "" ∨ p = "" then .error errMsg else .ok ⟨k, s, p⟩

/-- `KrakenClient.__init__`: empty-credential check, then
`base64.b64decode(secret)` — a decode failure raises at construction.
`decode` is the Python `base64.b64decode` (`none` = `binascii.Error`). -/
def krakenInit (decode : String → Option (List ℕ)) (apiKey secretKey : String) :
    Except String KrakenState :=
  let k := pyStrip apiKey
  let s := pyStrip secretKey
  if k = "" ∨ s = "" then .error "Missing Kraken api_key/secret_key"
  else
    match decode s with
    | none => .error "Invalid Kraken secret_key (base64 decode failed)"
    | some b => .ok ⟨k, s, b⟩

/-- `CoinbaseExchangeClient.__init__`: three-credential check, then the
construction-time base64 decode of the secret. -/
def coinbaseInit (decode : String → Option (List ℕ))
    (apiKey secretKey passphrase : String) : Except String CoinbaseState :=
  let k := pyStrip apiKey
  let s := pyStrip secretKey
  let p := pyStrip passphrase
  if k = "" ∨ s = "" ∨ p = "" then .error "Missing CoinbaseExchange api_key/secret_key/passphrase"
  else
    match decode s with
    | none => .error "Invalid CoinbaseExchange secret_key (base64 decode failed)"
    | some b => .ok ⟨k, s, p, b⟩

/-- Modelled from the spec: the constructors of `BinanceSpotClient`,
`BinanceFuturesClient`, `OkxClient`, `BitgetSpotClient`,
`BitgetMixClient` and `BybitClient` are not under `src/` (only the
factory that calls them is). Per spec §4.1/§7, construction fails
immediately with a configuration error when a required credential field
is absent or empty. -/
def specCredsInit (errMsg : String) (required : List String) : Except String Unit :=
  if (required.map pyStrip).contains "" then .error errMsg else .ok ()

/-- A constructed adapter, tagged by its concrete class, with the
constructor state (or the spec-modelled credential arguments) and the
resolved base URL. -/
inductive BuiltClient where
  | binanceSpot (apiKey secretKey baseUrl : String)
  | binanceFutures (apiKey secretKey baseUrl : String)
  | okx (apiKey secretKey passphrase baseUrl : String)
  | bitgetSpot (apiKey secretKey passphrase baseUrl channelApiCode : String)
  | bitgetMix (apiKey secretKey passphrase baseUrl : String)
  | bybit (apiKey secretKey baseUrl category : String) (recvWindowMs : ℤ)
  | coinbase (st : CoinbaseState) (baseUrl : String)
  | kraken (st : KrakenState) (baseUrl : String)
  | krakenFutures (st : KeySecretState) (baseUrl : String)
  | kucoinSpot (st : KeySecretPassState) (baseUrl : String)
  | kucoinFutures (st : KeySecretPassState) (baseUrl : String)
  | gateSpot (st : KeySecretState) (baseUrl : String)
  | gateFutures (st : KeySecretState) (baseUrl : String)
  | bitfinex (st : KeySecretState) (baseUrl : String)
  | bitfinexDeriv (st : KeySecretState) (baseUrl : String)

/-- `factory.create_client`: exchange-id and credential extraction,
market-type normalisation, the per-exchange branch chain, and the
trailing unsupported-exchange error. `decode` is `base64.b64decode`. -/
def createClient (decode : String → Option (List ℕ)) (cfg : ExchangeConfig)
    (marketType : String) : Except String BuiltClient :=
  let exchangeId := factoryExchangeId cfg
  let apiKey := cfgGet [cfg.api_key, cfg.apiKey]
  let secretKey := cfgGet [cfg.secret_key, cfg.secret]
  let passphrase := cfgGet [cfg.passphrase, cfg.password]
  let mt := factoryMt cfg marketType
  if exchangeId = "binance" then
    if mt = "spot" then
      (specCredsInit "Missing Binance api_key/secret_key" [apiKey, secretKey]).map
        fun _ => .binanceSpot apiKey secretKey (baseUrlOr cfg.base_url cfg.baseUrl "https://api.binance.com")
    else
      (specCredsInit "Missing Binance api_key/secret_key" [apiKey, secretKey]).map
        fun _ => .binanceFutures apiKey secretKey (baseUrlOr cfg.base_url cfg.baseUrl "https://fapi.binance.com")
  else if exchangeId = "okx" then
    (specCredsInit "Missing OKX api_key/secret_key/passphrase" [apiKey, secretKey, passphrase]).map
      fun _ => .okx apiKey secretKey passphrase (baseUrlOr cfg.base_url cfg.baseUrl "https://www.okx.com")
  else if exchangeId = "bitget" then
    let baseUrl := baseUrlOr cfg.base_url cfg.baseUrl "https://api.bitget.com"
    if mt = "spot" then
      let channelApiCode :=
        let c := cfgGet [cfg.channel_api_code, cfg.channelApiCode]
        if c = "" then "bntva" else c
      (specCredsInit "Missing Bitget api_key/secret_key/passphrase" [apiKey, secretKey, passphrase]).map
        fun _ => .bitgetSpot apiKey secretKey passphrase baseUrl channelApiCode
    else
      (specCredsInit "Missing Bitget api_key/secret_key/passphrase" [apiKey, secretKey, passphrase]).map
        fun _ => .bitgetMix apiKey secretKey passphrase baseUrl
  else if exchangeId = "bybit" then
    let category := if mt = "spot" then "spot" else "linear"
    let recvWindowMs := pyOrIntDefault [cfg.recv_window_ms, cfg.recvWindow] 5000
    (specCredsInit "Missing Bybit api_key/secret_key" [apiKey, secretKey]).map
      fun _ => .bybit apiKey secretKey (baseUrlOr cfg.base_url cfg.baseUrl "https://api.bybit.com") category recvWindowMs
  else if exchangeId = "coinbaseexchange" ∨ exchangeId = "coinbase_exchange" then
    if mt ≠ "spot" then .error "CoinbaseExchange only supports spot market_type in this project"
    else
      (coinbaseInit decode apiKey secretKey passphrase).map
        fun st => .coinbase st (baseUrlOr cfg.base_url cfg.baseUrl "https://api.exchange.coinbase.com")
  else if exchangeId = "kraken" then
    if mt = "spot" then
      (krakenInit decode apiKey secretKey).map
        fun st => .kraken st (baseUrlOr cfg.base_url cfg.baseUrl "https://api.kraken.com")
    else
      (keySecretInit "Missing KrakenFutures api_key/secret_key" apiKey secretKey).map
        fun st => .krakenFutures st (baseUrlOr cfg.futures_base_url cfg.futuresBaseUrl "https://futures.kraken.com")
  else if exchangeId = "kucoin" then
    if mt = "spot" then
      (keySecretPassInit "Missing KuCoin api_key/secret_key/passphrase" apiKey secretKey passphrase).map
        fun st => .kucoinSpot st (baseUrlOr cfg.base_url cfg.baseUrl "https://api.kucoin.com")
    else
      (keySecretPassInit "Missing KuCoin Futures api_key/secret_key/passphrase" apiKey secretKey passphrase).map
        fun st => .kucoinFutures st (baseUrlOr cfg.futures_base_url cfg.futuresBaseUrl "https://api-futures.kucoin.com")
  else if exchangeId = "gate" then
    if mt = "spot" then
      (keySecretInit "Missing Gate api_key/secret_key" apiKey secretKey).map
        fun st => .gateSpot st (baseUrlOr cfg.base_url cfg.baseUrl "https://api.gateio.ws")
    else
      (keySecretInit "Missing Gate api_key/secret_key" apiKey secretKey).map
        fun st => .gateFutures st (baseUrlOr cfg.base_url cfg.baseUrl "https://api.gateio.ws")
  else if exchangeId = "bitfinex" then
    if mt = "spot" then
      (keySecretInit "Missing Bitfinex api_key/secret_key" apiKey secretKey).map
        fun st => .bitfinex st (baseUrlOr cfg.base_url cfg.baseUrl "https://api.bitfinex.com")
    else
      (keySecretInit "Missing Bitfinex api_key/secret_key" apiKey secretKey).map
        fun st => .bitfinexDeriv st (baseUrlOr cfg.base_url cfg.baseUrl "https://api.bitfinex.com")
  else .error ("Unsupported exchange_id: " ++ exchangeId)

end LiveTrading
namespace LiveTrading

/-- C8: configuration errors are raised at construction, never deferred
to signing: unknown exchange ids and coinbaseexchange with a non-spot
market type fail in the factory; every adapter constructor fails on an
empty required credential; Kraken and CoinbaseExchange fail at
construction when the secret does not base64-decode; and whenever those
constructions succeed, the stored signing key is the decoded secret —
so a malformed secret can never reach a later signature. -/
theorem config_errors_at_construction
    (decode : String → Option (List ℕ)) (cfg : ExchangeConfig) (marketType : String)
    (apiKey secretKey passphrase errMsg : String) :
    (factoryExchangeId cfg ∉ (["binance", "okx", "bitget", "bybit", "coinbaseexchange",
        "coinbase_exchange", "kraken", "kucoin", "gate", "bitfinex"] : List String) →
      isErr (createClient decode cfg marketType) = true)
  ∧ ((factoryExchangeId cfg = "coinbaseexchange" ∨ factoryExchangeId cfg = "coinbase_exchange") →
      factoryMt cfg marketType ≠ "spot" →
      createClient decode cfg marketType =
        .error "CoinbaseExchange only supports spot market_type in this project")
  ∧ (pyStrip apiKey = "" ∨ pyStrip secretKey = "" →
      isErr (keySecretInit errMsg apiKey secretKey) = true
      ∧ isErr (krakenInit decode apiKey secretKey) = true
      ∧ isErr (specCredsInit errMsg [apiKey, secretKey]) = true)
  ∧ (pyStrip apiKey = "" ∨ pyStrip secretKey = "" ∨ pyStrip passphrase = "" →
      isErr (keySecretPassInit errMsg apiKey secretKey passphrase) = true
      ∧ isErr (coinbaseInit decode apiKey secretKey passphrase) = true)
  ∧ (decode (pyStrip secretKey) = none →
      isErr (krakenInit decode apiKey secretKey) = true
      ∧ isErr (coinbaseInit decode apiKey secretKey passphrase) = true)
  ∧ (∀ st, krakenInit decode apiKey secretKey = .ok st →
      decode (pyStrip secretKey) = some st.secretBytes)
  ∧ (∀ st, coinbaseInit decode apiKey secretKey passphrase = .ok st →
      decode (pyStrip secretKey) = some st.secretBytes) := by
  refine ⟨?_, ?_, ?_, ?_, ?_, ?_, ?_⟩
  · intro h
    simp only [List.mem_cons, List.not_mem_nil, or_false, not_or] at h
    obtain ⟨h1, h2, h3, h4, h5, h6, h7, h8, h9, h10⟩ := h
    unfold createClient
    dsimp only
    rw [if_neg h1, if_neg h2, if_neg h3, if_neg h4, if_neg (not_or.mpr ⟨h5, h6⟩),
      if_neg h7, if_neg h8, if_neg h9, if_neg h10]
    rfl
  · intro hid hmt
    unfold createClient
    dsimp only
    rcases hid with hid | hid <;>
      rw [hid, if_neg (by decide), if_neg (by decide), if_neg (by decide),
        if_neg (by decide), if_pos (by decide), if_pos hmt]
  · intro h
    refine ⟨?_, ?_, ?_⟩
    · unfold keySecretInit
      dsimp only
      rw [if_pos h]
      rfl
    · unfold krakenInit
      dsimp only
      rw [if_pos h]
      rfl
    · unfold specCredsInit
      rcases h with h | h <;> simp [h, isErr]
  · intro h
    refine ⟨?_, ?_⟩
    · unfold keySecretPassInit
      dsimp only
      rw [if_pos h]
      rfl
    · unfold coinbaseInit
      dsimp only
      rw [if_pos h]
      rfl
  · intro hdec
    refine ⟨?_, ?_⟩
    · unfold krakenInit
      dsimp only
      split_ifs with h1
      · rfl
      · rw [hdec]
        rfl
    · unfold coinbaseInit
      dsimp only
      split_ifs with h1
      · rfl
      · rw [hdec]
        rfl
  · intro st h
    unfold krakenInit at h
    dsimp only at h
    split_ifs at h with h1
    rcases hdec : decode (pyStrip secretKey) with _ | b
    · rw [hdec] at h; cases h
    · rw [hdec] at h; cases h; rfl
  · intro st h
    unfold coinbaseInit at h
    dsimp only at h
    split_ifs at h with h1
    rcases hdec : decode (pyStrip secretKey) with _ | b
    · rw [hdec] at h; cases h
    · rw [hdec] at h; cases h; rfl

theorem config_errors_witness :
    isErr (createClient (fun _ => none)
      ⟨some "nope", none, none, none, none, none, none, none, none, none, none, none,
        none, none, none, none, none, none⟩ "swap") = true
  ∧ isErr (krakenInit (fun _ => none) "key" "secret") = true :=
  ⟨(config_errors_at_construction (fun _ => none)
      ⟨some "nope", none, none, none, none, none, none, none, none, none, none, none,
        none, none, none, none, none, none⟩ "swap" "" "" "" "").1 (by decide),
   ((config_errors_at_construction (fun _ => none)
      ⟨some "nope", none, none, none, none, none, none, none, none, none, none, none,
        none, none, none, none, none, none⟩ "swap" "key" "secret" "" "").2.2.2.2.1
      rfl).1⟩

end LiveTrading
namespace LiveTrading

/-! ## SHA-512 and HMAC-SHA512 (model of Python `hashlib.sha512` /
`hmac.new(..., hashlib.sha512)`, per FIPS 180-4 and RFC 2104; bytes are
`ℕ < 256`, 64-bit words are `ℕ` reduced mod `2^64`). The round constants
and initial hash values are derived, as in FIPS 180-4, from the
fractional parts of the cube/square roots of the first primes. -/

/-- Truncation to a 64-bit word. -/
def w64 (n : ℕ) : ℕ := n % 2 ^ 64

/-- Right rotation of a 64-bit word. -/
def rotr64 (x n : ℕ) : ℕ := w64 ((x >>> n) ||| (x <<< (64 - n)))

/-- Trial-division primality (executable). -/
def isPrimeB (n : ℕ) : Bool :=
  decide (2 ≤ n) && (((List.range n).drop 2).all fun d => n % d ≠ 0)

/-- The first `k` primes. -/
def firstPrimes (k : ℕ) : List ℕ := ((List.range 500).filter isPrimeB).take k

/-- Bisection step for the integer cube root. -/
def icbrtGo (n : ℕ) : ℕ → ℕ → ℕ → ℕ
  | 0, lo, _ => lo
  | fuel+1, lo, hi =>
    if hi ≤ lo + 1 then lo
    else
      let mid := (lo + hi) / 2
      if mid ^ 3 ≤ n then icbrtGo n fuel mid hi else icbrtGo n fuel lo mid

/-- The integer cube root `⌊n^(1/3)⌋`. -/
def icbrt (n : ℕ) : ℕ := icbrtGo n 210 0 (n + 2)

/-- Bisection step for the integer square root. -/
def isqrtGo (n : ℕ) : ℕ → ℕ → ℕ → ℕ
  | 0, lo, _ => lo
  | fuel+1, lo, hi =>
    if hi ≤ lo + 1 then lo
    else
      let mid := (lo + hi) / 2
      if mid ^ 2 ≤ n then isqrtGo n fuel mid hi else isqrtGo n fuel lo mid

/-- The integer square root `⌊√n⌋` (kernel-computable bisection). -/
def isqrt (n : ℕ) : ℕ := isqrtGo n 140 0 (n + 2)

/-- First 64 bits of the fractional part of `√p`. -/
def sqrtFrac64 (p : ℕ) : ℕ := isqrt (p * 2 ^ 128) % 2 ^ 64

/-- First 64 bits of the fractional part of `p^(1/3)`. -/
def cbrtFrac64 (p : ℕ) : ℕ := icbrt (p * 2 ^ 192) % 2 ^ 64

/-- The 80 SHA-512 round constants (FIPS 180-4): the first 64 bits of the
fractional parts of the cube roots of the first eighty primes (decimal;
see `sha512K_derived`). -/
def sha512K : List ℕ := [
  4794697086780616226, 8158064640168781261, 13096744586834688815, 16840607885511220156,
  4131703408338449720, 6480981068601479193, 10538285296894168987, 12329834152419229976,
  15566598209576043074, 1334009975649890238, 2608012711638119052, 6128411473006802146,
  8268148722764581231, 9286055187155687089, 11230858885718282805, 13951009754708518548,
  16472876342353939154, 17275323862435702243, 1135362057144423861, 2597628984639134821,
  3308224258029322869, 5365058923640841347, 6679025012923562964, 8573033837759648693,
  10970295158949994411, 12119686244451234320, 12683024718118986047, 13788192230050041572,
  14330467153632333762, 15395433587784984357, 489312712824947311, 1452737877330783856,
  2861767655752347644, 3322285676063803686, 5560940570517711597, 5996557281743188959,
  7280758554555802590, 8532644243296465576, 9350256976987008742, 10552545826968843579,
  11727347734174303076, 12113106623233404929, 14000437183269869457, 14369950271660146224,
  15101387698204529176, 15463397548674623760, 17586052441742319658, 1182934255886127544,
  1847814050463011016, 2177327727835720531, 2830643537854262169, 3796741975233480872,
  4115178125766777443, 5681478168544905931, 6601373596472566643, 7507060721942968483,
  8399075790359081724, 8693463985226723168, 9568029438360202098, 10144078919501101548,
  10430055236837252648, 11840083180663258601, 13761210420658862357, 14299343276471374635,
  14566680578165727644, 15097957966210449927, 16922976911328602910, 17689382322260857208,
  500013540394364858, 748580250866718886, 1242879168328830382, 1977374033974150939,
  2944078676154940804, 3659926193048069267, 4368137639120453308, 4836135668995329356,
  5532061633213252278, 6448918945643986474, 6902733635092675308, 7801388544844847127]

/-- The SHA-512 initial hash value (FIPS 180-4): the first 64 bits of the
fractional parts of the square roots of the first eight primes. -/
def sha512H0 : List ℕ := [
  7640891576956012808, 13503953896175478587, 4354685564936845355, 11912009170470909681,
  5840696475078001361, 11170449401992604703, 2270897969802886507, 6620516959819538809]

set_option maxRecDepth 7000 in
/-- The constant lists are exactly the prime-derived values. -/
theorem sha512K_derived :
    sha512K = (firstPrimes 80).map cbrtFrac64
  ∧ sha512H0 = (firstPrimes 8).map sqrtFrac64 := by
  constructor <;> decide

/-- Big-endian byte serialisation of `n` on `k` bytes. -/
def toBytesBE (k n : ℕ) : List ℕ := (List.range k).map fun i => (n >>> (8 * (k - 1 - i))) % 256

/-- Big-endian byte deserialisation. -/
def fromBytesBE (l : List ℕ) : ℕ := l.foldl (fun a b => a * 256 + b) 0

def chunksGo {α : Type} (k : ℕ) : ℕ → List α → List (List α)
  | 0, _ => []
  | fuel+1, l => if l.isEmpty then [] else l.take k :: chunksGo k fuel (l.drop k)

/-- Split a list into consecutive chunks of size `k`. -/
def chunks {α : Type} (k : ℕ) (l : List α) : List (List α) := chunksGo k l.length l

/-- SHA-512 padding: `0x80`, zeros to 112 mod 128, 16-byte big-endian bit
length. -/
def sha512Pad (msg : List ℕ) : List ℕ :=
  let L := msg.length
  let k := (112 + 128 - ((L + 1) % 128)) % 128
  msg ++ [128] ++ List.replicate k 0 ++ toBytesBE 16 (8 * L)

def ssig0 (x : ℕ) : ℕ := rotr64 x 1 ^^^ rotr64 x 8 ^^^ (x >>> 7)
def ssig1 (x : ℕ) : ℕ := rotr64 x 19 ^^^ rotr64 x 61 ^^^ (x >>> 6)
def bsig0 (x : ℕ) : ℕ := rotr64 x 28 ^^^ rotr64 x 34 ^^^ rotr64 x 39
def bsig1 (x : ℕ) : ℕ := rotr64 x 14 ^^^ rotr64 x 18 ^^^ rotr64 x 41
def chF (x y z : ℕ) : ℕ := (x &&& y) ^^^ ((x ^^^ (2 ^ 64 - 1)) &&& z)
def majF (x y z : ℕ) : ℕ := (x &&& y) ^^^ (x &&& z) ^^^ (y &&& z)

/-- Extend the 16 block words by one scheduled word. -/
def stepW (ws : List ℕ) : List ℕ :=
  let t := ws.length
  ws ++ [w64 (ssig1 (ws.getD (t - 2) 0) + ws.getD (t - 7) 0 +
    ssig0 (ws.getD (t - 15) 0) + ws.getD (t - 16) 0)]

def iterateN {α : Type} (f : α → α) : ℕ → α → α
  | 0, x => x
  | n+1, x => iterateN f n (f x)

/-- The SHA-512 working state (a..h). -/
structure Sha512State where
  a : ℕ
  b : ℕ
  c : ℕ
  d : ℕ
  e : ℕ
  f : ℕ
  g : ℕ
  hh : ℕ

/-- One SHA-512 round. -/
def sha512Round (W : List ℕ) (s : Sha512State) (t : ℕ) : Sha512State :=
  let T1 := w64 (s.hh + bsig1 s.e + chF s.e s.f s.g + sha512K.getD t 0 + W.getD t 0)
  let T2 := w64 (bsig0 s.a + majF s.a s.b s.c)
  ⟨w64 (T1 + T2), s.a, s.b, s.c, w64 (s.d + T1), s.e, s.f, s.g⟩

/-- The SHA-512 compression function on one 128-byte block. -/
def sha512Compress (H : List ℕ) (block : List ℕ) : List ℕ :=
  let W := iterateN stepW 64 ((chunks 8 block).map fromBytesBE)
  let i0 : Sha512State := ⟨H.getD 0 0, H.getD 1 0, H.getD 2 0, H.getD 3 0,
    H.getD 4 0, H.getD 5 0, H.getD 6 0, H.getD 7 0⟩
  let s := (List.range 80).foldl (sha512Round W) i0
  [w64 (H.getD 0 0 + s.a), w64 (H.getD 1 0 + s.b), w64 (H.getD 2 0 + s.c),
   w64 (H.getD 3 0 + s.d), w64 (H.getD 4 0 + s.e), w64 (H.getD 5 0 + s.f),
   w64 (H.getD 6 0 + s.g), w64 (H.getD 7 0 + s.hh)]

/-- SHA-512 of a byte string. -/
def sha512 (msg : List ℕ) : List ℕ :=
  ((chunks 128 (sha512Pad msg)).foldl sha512Compress sha512H0).flatMap (toBytesBE 8)

/-- HMAC-SHA512 (RFC 2104, block size 128). -/
def hmacSha512 (key msg : List ℕ) : List ℕ :=
  let k1 := if 128 < key.length then sha512 key else key
  let k0 := k1 ++ List.replicate (128 - k1.length) 0
  let ipad := k0.map fun b => b ^^^ 54
  let opad := k0.map fun b => b ^^^ 92
  sha512 (opad ++ sha512 (ipad ++ msg))

/-- Lowercase hex digit. -/
def hexDigitChar (n : ℕ) : Char := if n < 10 then Char.ofNat (48 + n) else Char.ofNat (87 + n)

/-- `hexdigest()`: lowercase hex of a byte string. -/
def hexDigest (bytes : List ℕ) : String :=
  String.mk (bytes.flatMap fun b => [hexDigitChar (b / 16), hexDigitChar (b % 16)])

/-- UTF-8 encoding of one character (model of `str.encode("utf-8")`). -/
def utf8EncodeCharNat (c : Char) : List ℕ :=
  let n := c.toNat
  if n < 128 then [n]
  else if n < 2048 then [192 + n / 64, 128 + n % 64]
  else if n < 65536 then [224 + n / 4096, 128 + (n / 64) % 64, 128 + n % 64]
  else [240 + n / 262144, 128 + (n / 4096) % 64, 128 + (n / 64) % 64, 128 + n % 64]

/-- `s.encode("utf-8")` as a byte list. -/
def utf8Bytes (s : String) : List ℕ := s.data.flatMap utf8EncodeCharNat

/-- `hmac.new(key.encode("utf-8"), msg.encode("utf-8"), hashlib.sha512).hexdigest()`. -/
def hmacSha512Hex (key msg : String) : String :=
  hexDigest (hmacSha512 (utf8Bytes key) (utf8Bytes msg))

/-- `str.upper()`. -/
def pyUpper (s : String) : String := String.mk (s.data.map Char.toUpper)

/-- `_GateBase._sign`: hex HMAC-SHA512, keyed by the stored secret, over
`method.upper() + "\n" + url + "\n" + query_string + "\n" + body_str + "\n" + ts`. -/
def gateSign (secretKey method url queryString bodyStr ts : String) : String :=
  let msg := pyUpper method ++ "\n" ++ url ++ "\n" ++ queryString ++ "\n" ++
    bodyStr ++ "\n" ++ ts
  hmacSha512Hex secretKey msg

set_option maxRecDepth 6000 in
/-- SHA-512 known-answer test (FIPS 180-4 example vector): the embedding
is the real hash, end to end. -/
theorem sha512_abc_kat : hexDigest (sha512 (utf8Bytes "abc")) =
    "ddaf35a193617abacc417349ae20413112e6fa4e89a97ea20a9eeee64b55d39a2192992a274fc1a836ba3c23a3feebbd454d4423643ce80e2a9ac94fa54ca49f" := by
  decide

set_option maxRecDepth 7200 in
/-- HMAC-SHA-512 known-answer test (RFC 4231, test case 1). -/
theorem hmac_sha512_rfc4231_kat :
    hexDigest (hmacSha512 (List.replicate 20 11) (utf8Bytes "Hi There")) =
    "87aa7cdea5ef619d4ff0b4241a1d6cb02379f4e2ce4ec2787ad0b30545e17cdedaa833b7d6b8a702038b274eaea3f4e4be9d914eeb61f1702e696c203a126854" := by
  decide

/-- C7: `_GateBase._sign` is a pure function: it returns the lowercase
hex HMAC-SHA512, keyed by the UTF-8 secret, of the canonical string
`method.upper() + "\n" + url + "\n" + query_string + "\n" + body_str +
"\n" + ts`, and equal inputs give byte-identical output. -/
theorem gate_sign_deterministic_hmac (secretKey method url queryString bodyStr ts : String) :
    gateSign secretKey method url queryString bodyStr ts =
      hmacSha512Hex secretKey
        (pyUpper method ++ "\n" ++ url ++ "\n" ++ queryString ++ "\n" ++
          bodyStr ++ "\n" ++ ts)
  ∧ gateSign secretKey method url queryString bodyStr ts =
      hexDigest (hmacSha512 (utf8Bytes secretKey)
        (utf8Bytes (pyUpper method ++ "\n" ++ url ++ "\n" ++ queryString ++ "\n" ++
          bodyStr ++ "\n" ++ ts)))
  ∧ (∀ s2 m2 u2 q2 b2 t2, secretKey = s2 → method = m2 → url = u2 → queryString = q2 →
      bodyStr = b2 → ts = t2 →
      gateSign secretKey method url queryString bodyStr ts =
        gateSign s2 m2 u2 q2 b2 t2) := by
  refine ⟨rfl, rfl, ?_⟩
  intro s2 m2 u2 q2 b2 t2 h1 h2 h3 h4 h5 h6
  subst h1; subst h2; subst h3; subst h4; subst h5; subst h6
  rfl

set_option maxRecDepth 7200 in
/-- Known-answer instance of `gate_sign_deterministic_hmac` (the hex
digest matches Python `hmac.new(b"mysecret", msg, hashlib.sha512)` on the
same canonical string). -/
theorem gate_sign_witness :
    gateSign "mysecret" "POST" "/api/v4/futures/usdt/orders" "" "{}" "1700000000" =
      gateSign "mysecret" "POST" "/api/v4/futures/usdt/orders" "" "{}" "1700000000"
  ∧ gateSign "mysecret" "POST" "/api/v4/futures/usdt/orders" "" "{}" "1700000000" =
      "807b083aa1328cbc93dcf660397dade592e7e1720b62395b563a6548e289000ea1de4ff1a1a444c9aa7f04907abd8bc40a25701efcda0b3f73ab5f9a10ecbbcf" :=
  ⟨(gate_sign_deterministic_hmac "mysecret" "POST" "/api/v4/futures/usdt/orders" ""
      "{}" "1700000000").2.2 "mysecret" "POST" "/api/v4/futures/usdt/orders" ""
      "{}" "1700000000" rfl rfl rfl rfl rfl rfl,
   by decide⟩

end LiveTrading
